import Mathlib

/-!
Verification development for the AI DungeonMaster frontend
(ShingiraiBhengesa/dungeon-master).

The repository is client-side UI orchestration: a session orchestrator that
relays user actions to a Flask backend (`/start`, `/choose`) and a view
controller that renders the returned turn into fixed DOM regions.  The code
exists in three variants:

* `src/static/js/script.js` - the canonical script (prompt input field, no
  quit button); embedded below at top level.
* `src/unnamed/part_001` - a variant with a quit button (`handleQuitClick`);
  embedded below in namespace `P1`.
* the sound/effects layer of `src/static/js/effects.js`
  (`initializeSounds`, the typewriter) - embedded below in namespace `FX`.

The embedding is a shallow one: the module-level mutable state plus the
semantically relevant DOM regions become a state structure, each event
handler becomes a pure state-transition function, and the event loop is a
fold over a list of events.  Decorative concerns (CSS animation classes,
particles, ripple, glow, scroll position, console.log noise) are not state.
The one asynchronous suspension point - the `fetch` round trip - is split
into the request-issuing half of the handler and a `response` event that
runs the continuation; since `postToBackend`'s `finally` re-enables
interaction via `setTimeout`, the continuation runs before `enableInteraction`,
which matches the order used in `stepResponse` below.
-/

/-- JavaScript truthiness of an optional string field: `undefined`/`null`
and the empty string are falsy. -/
def optTruthy : Option String → Bool
  | none => false
  | some s => !s.isEmpty

/-- JavaScript `a || b` for an optional string `a` and default `b`. -/
def truthyOr (o : Option String) (dflt : String) : String :=
  match o with
  | some s => if s.isEmpty then dflt else s
  | none => dflt

/-- Normalises an optional string to `none` unless it is truthy. -/
def truthyOpt (o : Option String) : Option String :=
  match o with
  | some s => if s.isEmpty then none else some s
  | none => none

/-- Character class `\s` of the JavaScript regex engine (the ASCII part
plus NBSP; the exotic Unicode space code points never occur in the inputs
considered here). -/
def isJsSpace (c : Char) : Bool :=
  c = ' ' || c = '\t' || c = '\n' || c = '\r' || c = '\x0b' || c = '\x0c' ||
    c = Char.ofNat 160

/-- The `originalChoiceText.replace(/^\d+\.\s*/, '')` step of `updateChoices`:
strip one leading run of digits followed by a literal dot and any whitespace;
if the string does not start with such an ordinal, return it unchanged. -/
def cleanChoiceText (s : String) : String :=
  match s.data.span Char.isDigit with
  | (ds, rest) =>
    if ds.isEmpty then s
    else
      match rest with
      | '.' :: rest2 => String.mk (rest2.dropWhile isJsSpace)
      | _ => s

/-- JavaScript `String.prototype.trim`: strip leading and trailing
whitespace (executable here, unlike `String.trim`). -/
def jsTrim (s : String) : String :=
  String.mk (((s.data.dropWhile isJsSpace).reverse.dropWhile isJsSpace).reverse)

/-- JavaScript `text.split('\n')` (executable here, unlike
`String.splitOn`): cut the character list at every newline. -/
def splitLinesAux : List Char → List Char → List String
  | [], acc => [String.mk acc.reverse]
  | '\n' :: cs, acc => String.mk acc.reverse :: splitLinesAux cs []
  | c :: cs, acc => splitLinesAux cs (c :: acc)

/-- JavaScript `text.split('\n')` on a string. -/
def splitLines (s : String) : List String :=
  splitLinesAux s.data []

/-- The `text.split('\n').map(line => line.trim()).filter(line => line).join('<br>')`
formatting applied by `updateStoryOutput` before inserting the narrative
(both the direct path and the typewriter path end with exactly this string
as the paragraph content). -/
def formatStoryText (text : String) : String :=
  String.intercalate "<br>" (((splitLines text).map jsTrim).filter
    (fun l => !l.isEmpty))

/-- The literal conversion named by the specification sentence, for
comparison with `formatStoryText` ("the response's scene with
newline-joined lines converted to line breaks", no trimming, no dropping
of blank lines).  Modelled from the spec for the refinement comparison of
claim C4. -/
def specNewlinesToBreaks (s : String) : String :=
  String.intercalate "<br>" (splitLines s)

/-- A node rendered into the `choices-container` region by `updateChoices`:
the terminal notice, the "Choose Your Next Step" heading, or one choice
button carrying its cleaned visible label and its zero-based index (the
visible numbering span shows `index + 1` followed by a dot). -/
inductive ChoiceNode where
  | endMessage : ChoiceNode
  | heading : ChoiceNode
  | button : String → Nat → ChoiceNode
deriving DecidableEq, Repr

/-- Content of the `story-output` region: either normal narrative prose
(the formatted innerHTML of the paragraph) or the red error block built by
`displayError`. -/
inductive StoryRegion where
  | prose : String → StoryRegion
  | errorBlock : String → StoryRegion
deriving DecidableEq, Repr

/-- Visible content of the scene-image region: the loaded image, the
"No visual generated." placeholder (script.js), the default
"Scene visuals will appear here." placeholder (part_001 variant), or the
"Error loading image." placeholder installed by the `onerror` handler. -/
inductive ImageView where
  | shown : String → ImageView
  | placeholderNoVisual : ImageView
  | placeholderDefault : ImageView
  | placeholderError : ImageView
deriving DecidableEq, Repr

/-- One POST issued by `postToBackend`: endpoint, the payload field
(`prompt` or `choice`), and the `session_id` merged into the body. -/
structure Request where
  endpoint : String
  payload : String
  sessionId : String
deriving DecidableEq, Repr

/-- The buttons of `updateChoices`: one per choice string, in input order,
index starting at `i`, label cleaned of any leading ordinal. -/
def renderButtons : Nat → List String → List ChoiceNode
  | _, [] => []
  | i, c :: cs => ChoiceNode.button (cleanChoiceText c) i :: renderButtons (i + 1) cs

/-- `updateChoices(choices)` as a pure rendering of the choices region.
`gameStarted` is the `initialPromptArea.classList.contains('hidden')` test
(the prompt area is hidden exactly while a game is in progress): with an
empty or absent list the terminal notice is shown only in that case;
otherwise the heading plus one button per label, input order preserved. -/
def updateChoices (choices : List String) (gameStarted : Bool) : List ChoiceNode :=
  if choices.isEmpty then
    if gameStarted then [ChoiceNode.endMessage] else []
  else
    ChoiceNode.heading :: renderButtons 0 choices

/-- The visible labels of the buttons of a rendered choices region, in
order. -/
def visibleButtons (ns : List ChoiceNode) : List String :=
  ns.filterMap (fun n =>
    match n with
    | ChoiceNode.button l _ => some l
    | _ => none)

/-- `updateSceneImage(imageUrl)` of script.js: a truthy URL shows the
image; a falsy one hides it, and because the placeholder was just reset to
the default text the `includes` test always succeeds and installs the
"No visual generated." placeholder. -/
def updateSceneImage (u : Option String) : ImageView :=
  match truthyOpt u with
  | some url => ImageView.shown url
  | none => ImageView.placeholderNoVisual

/-- State of the script.js frontend after `DOMContentLoaded`: the two
module-level variables (`isLoading`, `currentSessionId`), the semantic DOM
regions, the number of fetches outstanding, and the append-only log of
requests issued (ghost history, not UI). `storyNotes` are the yellow
"Note: ..." paragraphs appended after the narrative on a non-fatal error. -/
structure DMState where
  isLoading : Bool
  sessionId : Option String
  promptAreaHidden : Bool
  story : StoryRegion
  storyNotes : List String
  choicesRegion : List ChoiceNode
  imageView : ImageView
  audioSrc : Option String
  pending : Nat
  requests : List Request
deriving DecidableEq, Repr

/-- UI modes of the specification's state machine, derived from the state:
`busy` while a request is in flight, otherwise `active` when the prompt
area is hidden (game in progress) and `awaitingStart` when it is visible. -/
inductive UIMode where
  | awaitingStart : UIMode
  | busy : UIMode
  | active : UIMode
deriving DecidableEq, Repr

/-- Derives the specification's UI mode from the concrete state. -/
def uiMode (st : DMState) : UIMode :=
  if st.isLoading then UIMode.busy
  else if st.promptAreaHidden then UIMode.active
  else UIMode.awaitingStart

/-- `displayError(message)` of script.js: error block into the story
region, choices cleared (`innerHTML = ''`, no terminal notice), image and
audio cleared, prompt area restored. -/
def displayError (message : String) (st : DMState) : DMState :=
  { st with
    story := StoryRegion.errorBlock message
    storyNotes := []
    choicesRegion := []
    imageView := updateSceneImage none
    audioSrc := none
    promptAreaHidden := false }

/-- Message shown by `postToBackend` when `currentSessionId` is falsy. -/
def missingSessionMsg : String := "Session ID is missing. Please refresh the page."

/-- `postToBackend(endpoint, data)` up to its suspension point: with a
falsy session id it displays the missing-session error and yields `false`
(the `return null`); otherwise it sets `isLoading` (`disableInteraction`)
and issues the fetch, whose body is the payload merged with the session
id.  The response itself arrives later as a `response` event. -/
def postToBackend (endpoint payload : String) (st : DMState) : Bool × DMState :=
  match truthyOpt st.sessionId with
  | none => (false, displayError missingSessionMsg st)
  | some s =>
    (true,
      { st with
        isLoading := true
        pending := st.pending + 1
        requests := st.requests ++ [⟨endpoint, payload, s⟩] })

/-- The JSON payload shape consumed from `/start` and `/choose`. -/
structure TurnResponse where
  scene : Option String
  choices : Option (List String)
  image_url : Option String
  audio_url : Option String
  error : Option String
deriving DecidableEq, Repr

/-- Outcome of the suspended fetch round trip, as observed by the `try`
block of `postToBackend`: the fetch promise rejects; the body is not JSON
(with the response's `ok` flag, status and status text); or a JSON body is
obtained (with the `ok` flag, status and parsed fields). -/
inductive FetchOutcome where
  | netError : String → FetchOutcome
  | jsonFail : Bool → Nat → String → FetchOutcome
  | jsonOk : Bool → Nat → TurnResponse → FetchOutcome

/-- The `try` block of script.js's `postToBackend` after the fetch
resolves, as a throwing computation: a rejected fetch propagates; a
non-JSON body throws one of the two messages depending on `response.ok`;
a non-ok JSON response throws its `error` field when truthy and a generic
status message otherwise; an ok JSON body is returned. -/
def tryBody : FetchOutcome → Except String TurnResponse
  | FetchOutcome.netError m => Except.error m
  | FetchOutcome.jsonFail ok status statusText =>
    if ok then Except.error "Received unexpected non-JSON response from server."
    else Except.error ("Server returned non-JSON response: " ++ toString status
      ++ " " ++ statusText)
  | FetchOutcome.jsonOk ok status resp =>
    if ok then Except.ok resp
    else Except.error (truthyOr resp.error
      ("Request failed with status " ++ toString status))

/-- The `catch` clause's message: `error.message || 'Network error or
server unavailable.'`. -/
def errMsgOr (m : String) : String :=
  if m.isEmpty then "Network error or server unavailable." else m

/-- Fallback narrative `response.scene || "(...)"` of both handlers. -/
def fallbackScene : String := "(The story didn\x27t generate text for this turn.)"

/-- The shared success continuation of `handleStartClick` and
`handleChoiceClick` (their `if (response)` blocks are identical in
script.js, the start variant only re-removing the `hidden` class that
`displayError` already removes): fatal when `error` is truthy and `scene`
falsy, otherwise render narrative, image, audio and choices and append a
warning note when a truthy `error` rides along. -/
def applyTurnResponse (resp : TurnResponse) (st : DMState) : DMState :=
  if optTruthy resp.error && !optTruthy resp.scene then
    displayError (truthyOr resp.error "") st
  else
    let st1 := { st with
      story := StoryRegion.prose (formatStoryText (truthyOr resp.scene fallbackScene))
      storyNotes := [] }
    let st2 := { st1 with
      imageView := updateSceneImage resp.image_url
      audioSrc := truthyOpt resp.audio_url }
    let st3 := { st2 with
      choicesRegion := updateChoices (resp.choices.getD []) st2.promptAreaHidden }
    if optTruthy resp.error then
      { st3 with storyNotes := st3.storyNotes ++ ["Note: " ++ truthyOr resp.error ""] }
    else st3

/-- Completion of an outstanding fetch: the handler continuation resumes
(catch clause funnels every failure into `displayError`), then the
`finally`'s deferred `enableInteraction` clears `isLoading`.  Without an
outstanding request the event cannot occur and is the identity. -/
def stepResponse (o : FetchOutcome) (st : DMState) : DMState :=
  if st.pending = 0 then st
  else
    let st1 := { st with pending := st.pending - 1 }
    let st2 :=
      match tryBody o with
      | Except.error m => displayError (errMsgOr m) st1
      | Except.ok resp => applyTurnResponse resp st1
    { st2 with isLoading := false }

/-- `handleStartClick` of script.js up to its suspension point, with the
prompt input's current value as argument: a no-op while `isLoading`; an
alert only (no state change, no request) for a whitespace-only prompt;
otherwise hide the prompt area, show the generating message, clear the
regions (`updateChoices([])` runs after the prompt area is hidden, so the
terminal notice appears during loading), and call `postToBackend`. -/
def handleStartClick (promptValue : String) (st : DMState) : DMState :=
  if st.isLoading then st
  else
    let prompt := jsTrim promptValue
    if prompt.isEmpty then st
    else
      let st1 := { st with promptAreaHidden := true }
      let st2 := { st1 with
        story := StoryRegion.prose
          (formatStoryText "Generating the start of your adventure...")
        storyNotes := [] }
      let st3 := { st2 with
        choicesRegion := updateChoices [] st2.promptAreaHidden }
      let st4 := { st3 with
        imageView := updateSceneImage none
        audioSrc := none }
      (postToBackend "/start" prompt st4).2

/-- `handleChoiceClick(choiceText)` of script.js up to its suspension
point: a no-op while `isLoading`; otherwise (with no validation of the
choice text) show the processing message, clear the regions, and call
`postToBackend`. -/
def handleChoiceClick (choiceText : String) (st : DMState) : DMState :=
  if st.isLoading then st
  else
    let st1 := { st with
      story := StoryRegion.prose (formatStoryText "Processing your choice...")
      storyNotes := [] }
    let st2 := { st1 with
      choicesRegion := updateChoices [] st1.promptAreaHidden }
    let st3 := { st2 with
      imageView := updateSceneImage none
      audioSrc := none }
    (postToBackend "/choose" choiceText st3).2

/-- The `onerror` handler wired by `updateSceneImage` for a shown image:
hide the image and install the error placeholder. -/
def stepImageError (st : DMState) : DMState :=
  match st.imageView with
  | ImageView.shown _ => { st with imageView := ImageView.placeholderError }
  | _ => st

/-- Events of the script.js frontend after initialization. -/
inductive Event where
  | startClick : String → Event
  | choiceClick : String → Event
  | response : FetchOutcome → Event
  | imageError : Event

/-- The event-driven step function of the script.js frontend. -/
def step : Event → DMState → DMState
  | Event.startClick p, st => handleStartClick p st
  | Event.choiceClick l, st => handleChoiceClick l st
  | Event.response o, st => stepResponse o st
  | Event.imageError, st => stepImageError st

/-- State after the `DOMContentLoaded` handler of script.js:
`currentSessionId = sessionIdInput.value` (read exactly once), welcome
message rendered, image and audio regions cleared, interaction enabled. -/
def initState (sessionInputValue : String) : DMState :=
  { isLoading := false
    sessionId := some sessionInputValue
    promptAreaHidden := false
    story := StoryRegion.prose (formatStoryText
      "Enter a description below to start your AI-powered adventure!")
    storyNotes := []
    choicesRegion := []
    imageView := updateSceneImage none
    audioSrc := none
    pending := 0
    requests := [] }

/-- Runs the event-driven execution from a state through a list of events. -/
def run (st : DMState) (evs : List Event) : DMState :=
  evs.foldl (fun s e => step e s) st

namespace P1

/-!
Embedding of the `src/unnamed/part_001` variant of the frontend script.
It differs from script.js in the pieces relevant to the claims: the DOM
has separate `initial-prompt-container`, `start-button-container` and
`quit-game-container` regions; `displayError` routes through
`updateStoryOutput(message, true)` and `updateChoices([])`; the success
continuations of `handleStartClick`/`handleChoiceClick` have no
`error && !scene` fatal check; `updateSceneImage(null)` always restores
the default placeholder; and `handleQuitClick` resets the UI locally.
The prompt input's value is part of the state here because
`handleQuitClick` clears it.
-/

/-- State of the part_001 variant after `DOMContentLoaded`. -/
structure St where
  isLoading : Bool
  sessionId : Option String
  promptHidden : Bool
  startBtnHidden : Bool
  quitHidden : Bool
  promptValue : String
  story : StoryRegion
  storyNotes : List String
  choicesRegion : List ChoiceNode
  imageView : ImageView
  audioSrc : Option String
  pending : Nat
  requests : List Request
deriving DecidableEq, Repr

/-- `updateSceneImage(imageUrl)` of the part_001 variant: a falsy URL
restores the default "Scene visuals will appear here." placeholder. -/
def updateSceneImage (u : Option String) : ImageView :=
  match truthyOpt u with
  | some url => ImageView.shown url
  | none => ImageView.placeholderDefault

/-- `displayError(message)` of the part_001 variant: error block via
`updateStoryOutput(message, true)`, then `updateChoices([])` - which runs
while the prompt container still has its pre-error visibility, so during a
game it appends the terminal notice - then image/audio cleared, prompt and
start containers shown, quit container hidden. -/
def displayError (message : String) (st : St) : St :=
  { st with
    story := StoryRegion.errorBlock message
    storyNotes := []
    choicesRegion := updateChoices [] st.promptHidden
    imageView := updateSceneImage none
    audioSrc := none
    promptHidden := false
    startBtnHidden := false
    quitHidden := true }

/-- Missing-session message of the part_001 variant. -/
def missingSessionMsg : String :=
  "Session ID is missing. Please refresh or ensure it\x27s correctly set up."

/-- `postToBackend` of the part_001 variant up to its suspension point. -/
def postToBackend (endpoint payload : String) (st : St) : Bool × St :=
  match truthyOpt st.sessionId with
  | none => (false, displayError missingSessionMsg st)
  | some s =>
    (true,
      { st with
        isLoading := true
        pending := st.pending + 1
        requests := st.requests ++ [⟨endpoint, payload, s⟩] })

/-- The `try` block of the part_001 `postToBackend`: here the
`response.json()` call is not wrapped in an inner try, so a parse failure
propagates its own message to the catch clause. -/
def tryBody : FetchOutcome → Except String TurnResponse
  | FetchOutcome.netError m => Except.error m
  | FetchOutcome.jsonFail _ _ m => Except.error m
  | FetchOutcome.jsonOk ok status resp =>
    if ok then Except.ok resp
    else Except.error (truthyOr resp.error
      ("Request failed with status " ++ toString status ++ "."))

/-- The success continuation shared by `handleStartClick` and
`handleChoiceClick` of the part_001 variant: no fatal-error check at all -
the narrative (or its fallback), image, audio and choices render, and a
truthy `error` only appends the warning note. -/
def applyTurnResponse (resp : TurnResponse) (st : St) : St :=
  let st1 := { st with
    story := StoryRegion.prose (formatStoryText (truthyOr resp.scene fallbackScene))
    storyNotes := [] }
  let st2 := { st1 with
    imageView := updateSceneImage resp.image_url
    audioSrc := truthyOpt resp.audio_url }
  let st3 := { st2 with
    choicesRegion := updateChoices (resp.choices.getD []) st2.promptHidden }
  if optTruthy resp.error then
    { st3 with storyNotes := st3.storyNotes ++ ["Note: " ++ truthyOr resp.error ""] }
  else st3

/-- Completion of an outstanding fetch in the part_001 variant. -/
def stepResponse (o : FetchOutcome) (st : St) : St :=
  if st.pending = 0 then st
  else
    let st1 := { st with pending := st.pending - 1 }
    let st2 :=
      match tryBody o with
      | Except.error m => displayError (errMsgOr m) st1
      | Except.ok resp => applyTurnResponse resp st1
    { st2 with isLoading := false }

/-- `handleStartClick` of the part_001 variant up to its suspension point:
guarded by `isLoading` and by a whitespace-only prompt; hides the prompt
and start containers, shows the quit container, renders the generating
message, clears the regions, calls `postToBackend`. -/
def handleStartClick (st : St) : St :=
  if st.isLoading then st
  else
    let prompt := jsTrim st.promptValue
    if prompt.isEmpty then st
    else
      let st1 := { st with
        promptHidden := true
        startBtnHidden := true
        quitHidden := false }
      let st2 := { st1 with
        story := StoryRegion.prose
          (formatStoryText "Generating the start of your adventure...")
        storyNotes := [] }
      let st3 := { st2 with
        choicesRegion := updateChoices [] st2.promptHidden }
      let st4 := { st3 with
        imageView := updateSceneImage none
        audioSrc := none }
      (postToBackend "/start" prompt st4).2

/-- `handleChoiceClick` of the part_001 variant up to its suspension
point: guarded only by `isLoading`, no validation of the choice text. -/
def handleChoiceClick (choiceText : String) (st : St) : St :=
  if st.isLoading then st
  else
    let st1 := { st with
      story := StoryRegion.prose (formatStoryText "Processing your choice...")
      storyNotes := [] }
    let st2 := { st1 with
      choicesRegion := updateChoices [] st1.promptHidden }
    let st3 := { st2 with
      imageView := updateSceneImage none
      audioSrc := none }
    (postToBackend "/choose" choiceText st3).2

/-- `handleQuitClick` of the part_001 variant (no `isLoading` guard in the
source): welcome message, `updateChoices([])` - which runs while the
prompt container still has its in-game visibility - image and audio
cleared, prompt input emptied, prompt and start containers shown, quit
container hidden, `enableInteraction()`. -/
def handleQuitClick (st : St) : St :=
  let st1 := { st with
    story := StoryRegion.prose (formatStoryText
      "Enter a description below to start your AI-powered adventure!")
    storyNotes := [] }
  let st2 := { st1 with
    choicesRegion := updateChoices [] st1.promptHidden }
  let st3 := { st2 with
    imageView := updateSceneImage none
    audioSrc := none }
  { st3 with
    promptValue := ""
    promptHidden := false
    startBtnHidden := false
    quitHidden := true
    isLoading := false }

/-- Events of the part_001 variant; `editPrompt` models the user typing
into the prompt input field. -/
inductive Ev where
  | editPrompt : String → Ev
  | startClick : Ev
  | choiceClick : String → Ev
  | response : FetchOutcome → Ev
  | quitClick : Ev

/-- The event-driven step function of the part_001 variant. -/
def step : Ev → St → St
  | Ev.editPrompt s, st => { st with promptValue := s }
  | Ev.startClick, st => handleStartClick st
  | Ev.choiceClick l, st => handleChoiceClick l st
  | Ev.response o, st => stepResponse o st
  | Ev.quitClick, st => handleQuitClick st

/-- State after the `DOMContentLoaded` handler of the part_001 variant
(for a truthy session input value; a falsy one aborts initialization). -/
def initState (sessionInputValue : String) : St :=
  { isLoading := false
    sessionId := some sessionInputValue
    promptHidden := false
    startBtnHidden := false
    quitHidden := true
    promptValue := ""
    story := StoryRegion.prose (formatStoryText
      "Enter a description below to start your AI-powered adventure!")
    storyNotes := []
    choicesRegion := []
    imageView := updateSceneImage none
    audioSrc := none
    pending := 0
    requests := [] }

/-- Runs the part_001 event machine through a list of events. -/
def run (st : St) (evs : List Ev) : St :=
  evs.foldl (fun s e => step e s) st

/-- The user-visible rendering of a part_001 state (everything except the
ghost request log and the session id): this is what "the initial
awaiting-start rendering" of claim C7 compares. -/
structure UIView where
  isLoading : Bool
  promptHidden : Bool
  startBtnHidden : Bool
  quitHidden : Bool
  promptValue : String
  story : StoryRegion
  storyNotes : List String
  choicesRegion : List ChoiceNode
  imageView : ImageView
  audioSrc : Option String
deriving DecidableEq, Repr

/-- Projects the user-visible rendering out of a part_001 state. -/
def uiView (st : St) : UIView :=
  { isLoading := st.isLoading, promptHidden := st.promptHidden
    startBtnHidden := st.startBtnHidden, quitHidden := st.quitHidden
    promptValue := st.promptValue, story := st.story
    storyNotes := st.storyNotes, choicesRegion := st.choicesRegion
    imageView := st.imageView, audioSrc := st.audioSrc }

end P1

namespace FX

/-!
Embedding of the sound subsystem of `src/static/js/effects.js`
(`initializeSounds`) and of the autoplay handling of the audio player in
the contentEditable variant appended to that file.
-/

/-- The fixed sound-cue table of `soundManager.sounds`. -/
def soundPath (name : String) : Option String :=
  if name = "click" then some "/static/sounds/click.mp3"
  else if name = "success" then some "/static/sounds/success.mp3"
  else if name = "ambient" then some "/static/sounds/ambient.mp3"
  else if name = "error" then some "/static/sounds/error.mp3"
  else none

/-- What the host does with one `soundManager.play` call: constructing the
`Audio` element throws, the `play()` promise rejects, or playback starts. -/
inductive SoundEvent where
  | ctorThrows : String → SoundEvent
  | playRejected : String → SoundEvent
  | playOk : SoundEvent
deriving DecidableEq, Repr

/-- Result of a `soundManager.play` call: unknown cue name (warned),
construction failure (warned, `null` returned), or a playing element
together with the warnings logged along the way. -/
inductive SoundResult where
  | noSound : String → SoundResult
  | failed : String → SoundResult
  | playing : String → List String → SoundResult
deriving DecidableEq, Repr

/-- The body of the `try` block of `soundManager.play`, as a throwing
computation over the host's behaviour: a constructor exception propagates;
a rejected `play()` promise is caught by the attached `.catch` and becomes
a logged warning. -/
def audioCtorE (ev : SoundEvent) : Except String (List String) :=
  match ev with
  | SoundEvent.ctorThrows m => Except.error m
  | SoundEvent.playRejected m => Except.ok ["Failed to play sound: " ++ m]
  | SoundEvent.playOk => Except.ok []

/-- `soundManager.play(soundName, options)`: unknown names are warned
about and ignored; the `try`/`catch` converts a constructor exception into
a warning and a `null` result; otherwise the element plays with any
promise-rejection warning logged. -/
def play (name : String) (ev : SoundEvent) : SoundResult :=
  match soundPath name with
  | none => SoundResult.noSound ("Sound \"" ++ name ++ "\" not found")
  | some p =>
    match audioCtorE ev with
    | Except.error m => SoundResult.failed ("Error playing sound \"" ++ name ++ "\": " ++ m)
    | Except.ok ws => SoundResult.playing p ws

/-- The warnings a `play` call logged. -/
def warningsOf : SoundResult → List String
  | SoundResult.noSound w => [w]
  | SoundResult.failed w => [w]
  | SoundResult.playing _ ws => ws

/-- The autoplay attempt of `updateAudioPlayer` in the contentEditable
variant of effects.js: with a truthy URL the player loads it and calls
`play()`; a rejected autoplay promise is caught and becomes a logged
warning, never a surfaced error.  Returns the player's source and the
warnings logged. -/
def updateAudioPlayerA (u : Option String) (autoplayRefused : Bool) :
    Option String × List String :=
  match truthyOpt u with
  | some url =>
    (some url, if autoplayRefused then ["Audio autoplay was prevented"] else [])
  | none => (none, [])

end FX

/-!
Concrete example data used by witnesses and counterexamples.
-/

/-- A successful turn response with two ordinal-labelled choices. -/
def okResp : TurnResponse :=
  { scene := some "You are in a cave.", choices := some ["1. Go left", "2. Go right"]
    image_url := none, audio_url := none, error := none }

/-- A fatal backend response: truthy `error`, no `scene`. -/
def errResp : TurnResponse :=
  { scene := none, choices := some [], image_url := none, audio_url := none
    error := some "Generation failed" }

/-- A non-fatal backend response: narrative plus an asset warning. -/
def mixedResp : TurnResponse :=
  { scene := some "You are in a cave.", choices := some ["1. Go left"]
    image_url := some "/img.png", audio_url := none
    error := some "Image generation failed" }

/-- The script.js frontend right after a start click issued its request:
busy, prompt area hidden, one request outstanding. -/
def busyExample : DMState :=
  run (initState "sess") [Event.startClick "A cave"]

/-- The script.js frontend after a completed successful start turn:
active, idle, choices rendered. -/
def activeExample : DMState :=
  run (initState "sess")
    [Event.startClick "A cave", Event.response (FetchOutcome.jsonOk true 200 okResp)]

/-- A state whose session id is empty, as when the embedded
`session-id` input is blank at page load. -/
def noSessionExample : DMState := initState ""

/-- The part_001 run of claim C2's counterexample: a started game whose
first turn comes back with `error` set and no `scene`. -/
def p1ErrTrace : List P1.Ev :=
  [P1.Ev.editPrompt "A cave", P1.Ev.startClick,
   P1.Ev.response (FetchOutcome.jsonOk true 200 errResp)]

/-- A response whose scene contains a blank line, on which the literal
newline-to-break reading of C4 differs from what the code renders. -/
def nlResp : TurnResponse :=
  { scene := some "The hall.\n\nA door.", choices := some ["1. Onward"]
    image_url := none, audio_url := none, error := none }

/-- The part_001 run of claim C7's counterexample: a full successful
start turn followed by a quit click. -/
def p1QuitTrace : List P1.Ev :=
  [P1.Ev.editPrompt "A cave", P1.Ev.startClick,
   P1.Ev.response (FetchOutcome.jsonOk true 200 okResp), P1.Ev.quitClick]

/-- A part_001 state whose session id is empty at page load. -/
def p1NoSessionExample : P1.St := P1.initState ""

/-- The per-page-load session invariant of the script.js machine: the
module variable still holds the value read at initialization, and every
request logged so far carried exactly that value. -/
def sessionOK (v : String) (st : DMState) : Prop :=
  st.sessionId = some v ∧ ∀ r ∈ st.requests, r.sessionId = v

/-- The invariant tying the busy flag to the number of outstanding
requests in the script.js machine: a request is in flight exactly while
`isLoading` is set. -/
def loadInv (st : DMState) : Prop :=
  st.pending = (if st.isLoading then 1 else 0)

/-!
Theorems.
-/

lemma displayError_pending (m : String) (st : DMState) :
    (displayError m st).pending = st.pending := rfl

lemma displayError_isLoading (m : String) (st : DMState) :
    (displayError m st).isLoading = st.isLoading := rfl

lemma applyTurnResponse_pending (r : TurnResponse) (st : DMState) :
    (applyTurnResponse r st).pending = st.pending := by
  unfold applyTurnResponse
  split
  · rfl
  · split <;> rfl

lemma applyTurnResponse_isLoading (r : TurnResponse) (st : DMState) :
    (applyTurnResponse r st).isLoading = st.isLoading := by
  unfold applyTurnResponse
  split
  · rfl
  · split <;> rfl

lemma handleStartClick_loadInv (p : String) (st : DMState) (h : loadInv st) :
    loadInv (handleStartClick p st) := by
  unfold loadInv at h ⊢
  unfold handleStartClick
  by_cases hl : st.isLoading
  · simp only [hl, if_true]
    simpa [hl] using h
  · simp only [hl, Bool.false_eq_true, if_false]
    by_cases hp : (jsTrim p).isEmpty
    · simp only [hp, if_true]
      simpa [hl] using h
    · simp only [hp, Bool.false_eq_true, if_false]
      unfold postToBackend
      simp only []
      cases hs : truthyOpt st.sessionId with
      | none =>
        simp only [hs]
        simp [displayError, hl, h]
      | some s =>
        simp only [hs]
        simp [hl] at h
        simp [h]

lemma handleChoiceClick_loadInv (l : String) (st : DMState) (h : loadInv st) :
    loadInv (handleChoiceClick l st) := by
  unfold loadInv at h ⊢
  unfold handleChoiceClick
  by_cases hl : st.isLoading
  · simp only [hl, if_true]
    simpa [hl] using h
  · simp only [hl, Bool.false_eq_true, if_false]
    unfold postToBackend
    cases hs : truthyOpt st.sessionId with
    | none =>
      simp only [hs]
      simp [displayError, hl, h]
    | some s =>
      simp only [hs]
      simp [hl] at h
      simp [h]

lemma stepResponse_loadInv (o : FetchOutcome) (st : DMState) (h : loadInv st) :
    loadInv (stepResponse o st) := by
  unfold loadInv at h ⊢
  unfold stepResponse
  by_cases hz : st.pending = 0
  · simp only [hz, if_true]
    exact hz ▸ h
  · simp only [hz, Bool.false_eq_true, if_false]
    have hl : st.isLoading = true := by
      by_contra hc
      simp [hc] at h
      exact hz h
    simp [hl] at h
    cases htb : tryBody o with
    | error m =>
      simp only [htb]
      simp [displayError, h]
    | ok r =>
      simp only [htb]
      simp [applyTurnResponse_pending, h]

lemma stepImageError_loadInv (st : DMState) (h : loadInv st) :
    loadInv (stepImageError st) := by
  unfold loadInv at h ⊢
  unfold stepImageError
  cases st.imageView <;> simpa using h

lemma step_loadInv (e : Event) (st : DMState) (h : loadInv st) :
    loadInv (step e st) := by
  cases e with
  | startClick p => exact handleStartClick_loadInv p st h
  | choiceClick l => exact handleChoiceClick_loadInv l st h
  | response o => exact stepResponse_loadInv o st h
  | imageError => exact stepImageError_loadInv st h

lemma run_loadInv (evs : List Event) (st : DMState) (h : loadInv st) :
    loadInv (run st evs) := by
  induction evs generalizing st with
  | nil => exact h
  | cons e evs ih => exact ih (step e st) (step_loadInv e st h)

/-- Claim C1: in the event-driven execution at most one backend request is
ever outstanding; a start or choice click arriving while `isLoading` is
set returns immediately, issuing no request and changing no state. -/
theorem c1_busy_guard :
    (∀ (st : DMState) (p : String), st.isLoading = true → handleStartClick p st = st) ∧
    (∀ (st : DMState) (l : String), st.isLoading = true → handleChoiceClick l st = st) ∧
    (∀ (v : String) (evs : List Event), (run (initState v) evs).pending ≤ 1) := by
  refine ⟨?_, ?_, ?_⟩
  · intro st p h
    unfold handleStartClick
    simp [h]
  · intro st l h
    unfold handleChoiceClick
    simp [h]
  · intro v evs
    have h0 : loadInv (initState v) := by
      unfold loadInv initState
      simp
    have h := run_loadInv evs (initState v) h0
    unfold loadInv at h
    by_cases hl : (run (initState v) evs).isLoading <;> simp [hl] at h <;> omega

/-- Witness for C1 at a concrete busy state and a concrete trace. -/
theorem c1_busy_guard_w :
    handleStartClick "Go north" busyExample = busyExample ∧
    handleChoiceClick "Go north" busyExample = busyExample ∧
    (run (initState "sess") [Event.startClick "A cave"]).pending ≤ 1 :=
  ⟨c1_busy_guard.1 busyExample "Go north" (by decide),
   c1_busy_guard.2.1 busyExample "Go north" (by decide),
   c1_busy_guard.2.2 "sess" [Event.startClick "A cave"]⟩

lemma visibleButtons_renderButtons (i : Nat) (cs : List String) :
    visibleButtons (renderButtons i cs) = cs.map cleanChoiceText := by
  induction cs generalizing i with
  | nil => rfl
  | cons c cs ih =>
    simp only [renderButtons, List.map_cons]
    rw [show visibleButtons (ChoiceNode.button (cleanChoiceText c) i :: renderButtons (i + 1) cs)
        = cleanChoiceText c :: visibleButtons (renderButtons (i + 1) cs) from rfl]
    rw [ih (i + 1)]

lemma endMessage_not_mem_renderButtons (i : Nat) (cs : List String) :
    ChoiceNode.endMessage ∉ renderButtons i cs := by
  induction cs generalizing i with
  | nil => simp [renderButtons]
  | cons c cs ih =>
    simp [renderButtons]
    exact ih (i + 1)

/-- Claim C5: rendering an empty choice list on a started game shows only
the terminal notice (no buttons); a non-empty list renders exactly one
button per label, in input order, with any leading ordinal stripped from
the visible label, and no terminal notice. -/
theorem c5_updateChoices_spec (choices : List String) (gameStarted : Bool) :
    (choices = [] → gameStarted = true →
      updateChoices choices gameStarted = [ChoiceNode.endMessage]) ∧
    (choices ≠ [] →
      visibleButtons (updateChoices choices gameStarted) = choices.map cleanChoiceText ∧
      ChoiceNode.endMessage ∉ updateChoices choices gameStarted) := by
  constructor
  · intro h hg
    subst h hg
    rfl
  · intro h
    have hne : choices.isEmpty = false := by
      cases choices with
      | nil => exact absurd rfl h
      | cons c cs => rfl
    constructor
    · unfold updateChoices
      simp only [hne, Bool.false_eq_true, if_false]
      rw [show visibleButtons (ChoiceNode.heading :: renderButtons 0 choices)
          = visibleButtons (renderButtons 0 choices) from rfl]
      exact visibleButtons_renderButtons 0 choices
    · unfold updateChoices
      simp only [hne, Bool.false_eq_true, if_false, List.mem_cons]
      rintro (hh | hh)
      · exact ChoiceNode.noConfusion hh
      · exact endMessage_not_mem_renderButtons 0 choices hh

/-- Witness for C5 on the two-label example of the specification. -/
theorem c5_updateChoices_spec_w :
    updateChoices [] true = [ChoiceNode.endMessage] ∧
    visibleButtons (updateChoices ["1. Go left", "2. Go right"] true) =
      ["Go left", "Go right"] ∧
    ChoiceNode.endMessage ∉ updateChoices ["1. Go left", "2. Go right"] true := by
  have h1 := (c5_updateChoices_spec [] true).1 rfl rfl
  have h2 := (c5_updateChoices_spec ["1. Go left", "2. Go right"] true).2 (by decide)
  exact ⟨h1, h2.1.trans (by decide), h2.2⟩

/-- Claim C2 (amended): in script.js, for both the start and the choose
flow - their response continuations are the identical block embedded as
`applyTurnResponse` - a response with a truthy `error` and a falsy `scene`
is fatal: the error text replaces the narrative and the UI resets to the
awaiting-start mode with choices, image and audio cleared. -/
theorem c2_fatal_error_resets (st : DMState) (resp : TurnResponse) (status : Nat)
    (e : String) (hp : st.pending = 1) (he : resp.error = some e)
    (hene : e.isEmpty = false) (hs : optTruthy resp.scene = false) :
    stepResponse (FetchOutcome.jsonOk true status resp) st =
      { st with
        pending := 0
        isLoading := false
        story := StoryRegion.errorBlock e
        storyNotes := []
        choicesRegion := []
        imageView := updateSceneImage none
        audioSrc := none
        promptAreaHidden := false } ∧
    uiMode (stepResponse (FetchOutcome.jsonOk true status resp) st) = UIMode.awaitingStart := by
  have hok : tryBody (FetchOutcome.jsonOk true status resp) = Except.ok resp := by
    simp [tryBody]
  have h1 : optTruthy resp.error = true := by
    rw [he]
    simp [optTruthy, hene]
  have h2 : truthyOr resp.error "" = e := by
    rw [he]
    simp [truthyOr, hene]
  have hmain : stepResponse (FetchOutcome.jsonOk true status resp) st =
      { st with
        pending := 0
        isLoading := false
        story := StoryRegion.errorBlock e
        storyNotes := []
        choicesRegion := []
        imageView := updateSceneImage none
        audioSrc := none
        promptAreaHidden := false } := by
    unfold stepResponse
    rw [hp, hok]
    simp only [one_ne_zero, if_false]
    unfold applyTurnResponse
    simp only [h1, hs, Bool.not_false, Bool.and_self, if_true, h2]
    simp [displayError]
  refine ⟨hmain, ?_⟩
  rw [hmain]
  rfl

/-- Witness for the amended C2 at a concrete busy state and response. -/
theorem c2_fatal_error_resets_w :
    stepResponse (FetchOutcome.jsonOk true 200 errResp) busyExample =
      { busyExample with
        pending := 0
        isLoading := false
        story := StoryRegion.errorBlock "Generation failed"
        storyNotes := []
        choicesRegion := []
        imageView := updateSceneImage none
        audioSrc := none
        promptAreaHidden := false } ∧
    uiMode (stepResponse (FetchOutcome.jsonOk true 200 errResp) busyExample) =
      UIMode.awaitingStart :=
  c2_fatal_error_resets busyExample errResp 200 "Generation failed"
    (by decide) (by decide) (by decide) (by decide)

/-- Counterexample to C2 as stated: in the `src/unnamed/part_001` variant
the start flow has no `error && !scene` check, so the fatal response of
`errResp` does not display the error in place of the narrative and does
not reset the UI to awaiting-start - the fallback narrative renders, the
warning is only a note, and the prompt container stays hidden with the
quit control visible. -/
theorem c2_p1_error_not_fatal_cex :
    ¬ ((P1.run (P1.initState "s") p1ErrTrace).story =
          StoryRegion.errorBlock "Generation failed" ∧
        (P1.run (P1.initState "s") p1ErrTrace).promptHidden = false) ∧
    (P1.run (P1.initState "s") p1ErrTrace).story =
      StoryRegion.prose "(The story didn\x27t generate text for this turn.)" ∧
    (P1.run (P1.initState "s") p1ErrTrace).storyNotes = ["Note: Generation failed"] ∧
    (P1.run (P1.initState "s") p1ErrTrace).promptHidden = true ∧
    (P1.run (P1.initState "s") p1ErrTrace).quitHidden = false := by
  refine ⟨?_, by decide, by decide, by decide, by decide⟩
  intro hc
  exact absurd hc.2 (by decide)

/-- Claim C4 (amended): a response with a non-empty `scene` and no
`error` renders the narrative as the scene split at newlines, each line
trimmed, empty lines dropped, and the remaining lines joined with line
breaks (not a verbatim newline-to-break substitution); the choices render
and the mode becomes active. -/
theorem c4_scene_render_active (st : DMState) (resp : TurnResponse) (status : Nat)
    (s : String) (hp : st.pending = 1) (hg : st.promptAreaHidden = true)
    (hs : resp.scene = some s) (hne : s.isEmpty = false) (he : resp.error = none) :
    (stepResponse (FetchOutcome.jsonOk true status resp) st).story =
      StoryRegion.prose (formatStoryText s) ∧
    (stepResponse (FetchOutcome.jsonOk true status resp) st).storyNotes = [] ∧
    (stepResponse (FetchOutcome.jsonOk true status resp) st).choicesRegion =
      updateChoices (resp.choices.getD []) true ∧
    uiMode (stepResponse (FetchOutcome.jsonOk true status resp) st) = UIMode.active := by
  have hok : tryBody (FetchOutcome.jsonOk true status resp) = Except.ok resp := by
    simp [tryBody]
  have h1 : optTruthy resp.error = false := by
    rw [he]
    rfl
  have h2 : truthyOr resp.scene fallbackScene = s := by
    rw [hs]
    simp [truthyOr, hne]
  unfold stepResponse
  rw [hp, hok]
  simp only [one_ne_zero, if_false]
  unfold applyTurnResponse
  simp only [h1, Bool.false_and, Bool.false_eq_true, if_false, h2]
  simp [uiMode, hg]

/-- Witness for the amended C4 at a concrete busy state and response. -/
theorem c4_scene_render_active_w :
    (stepResponse (FetchOutcome.jsonOk true 200 okResp) busyExample).story =
      StoryRegion.prose (formatStoryText "You are in a cave.") ∧
    (stepResponse (FetchOutcome.jsonOk true 200 okResp) busyExample).storyNotes = [] ∧
    (stepResponse (FetchOutcome.jsonOk true 200 okResp) busyExample).choicesRegion =
      updateChoices (okResp.choices.getD []) true ∧
    uiMode (stepResponse (FetchOutcome.jsonOk true 200 okResp) busyExample) =
      UIMode.active :=
  c4_scene_render_active busyExample okResp 200 "You are in a cave."
    (by decide) (by decide) (by decide) (by decide) (by decide)

/-- Counterexample to C4 as stated: the rendered narrative is not the
scene with newlines converted to line breaks - the blank line is dropped
(and lines are trimmed) by `formatStoryText`. -/
theorem c4_newline_literal_cex :
    (stepResponse (FetchOutcome.jsonOk true 200 nlResp) busyExample).story =
      StoryRegion.prose "The hall.<br>A door." ∧
    specNewlinesToBreaks "The hall.\n\nA door." = "The hall.<br><br>A door." ∧
    (stepResponse (FetchOutcome.jsonOk true 200 nlResp) busyExample).story ≠
      StoryRegion.prose (specNewlinesToBreaks "The hall.\n\nA door.") := by
  refine ⟨by decide, by decide, ?_⟩
  intro hc
  exact absurd hc (by decide)

/-- Claim C6: a response carrying both a non-empty `scene` and a truthy
`error` is not treated as failed: narrative, image, audio and choices
render normally, and the error text is appended after the narrative as
the distinct "Note: ..." warning element. -/
theorem c6_warning_nonfatal (st : DMState) (resp : TurnResponse) (status : Nat)
    (s e : String) (hp : st.pending = 1) (hg : st.promptAreaHidden = true)
    (hs : resp.scene = some s) (hsne : s.isEmpty = false)
    (he : resp.error = some e) (hene : e.isEmpty = false) :
    (stepResponse (FetchOutcome.jsonOk true status resp) st).story =
      StoryRegion.prose (formatStoryText s) ∧
    (stepResponse (FetchOutcome.jsonOk true status resp) st).storyNotes =
      ["Note: " ++ e] ∧
    (stepResponse (FetchOutcome.jsonOk true status resp) st).imageView =
      updateSceneImage resp.image_url ∧
    (stepResponse (FetchOutcome.jsonOk true status resp) st).audioSrc =
      truthyOpt resp.audio_url ∧
    (stepResponse (FetchOutcome.jsonOk true status resp) st).choicesRegion =
      updateChoices (resp.choices.getD []) true ∧
    uiMode (stepResponse (FetchOutcome.jsonOk true status resp) st) = UIMode.active := by
  have hok : tryBody (FetchOutcome.jsonOk true status resp) = Except.ok resp := by
    simp [tryBody]
  have h1 : optTruthy resp.error = true := by
    rw [he]
    simp [optTruthy, hene]
  have h1s : optTruthy resp.scene = true := by
    rw [hs]
    simp [optTruthy, hsne]
  have h2 : truthyOr resp.scene fallbackScene = s := by
    rw [hs]
    simp [truthyOr, hsne]
  have h3 : truthyOr resp.error "" = e := by
    rw [he]
    simp [truthyOr, hene]
  unfold stepResponse
  rw [hp, hok]
  simp only [one_ne_zero, if_false]
  unfold applyTurnResponse
  simp only [h1, h1s, Bool.not_true, Bool.and_false, Bool.false_eq_true, if_false,
    h2, h3, if_true]
  simp [uiMode, hg]

/-- Witness for C6 at a concrete busy state and mixed response. -/
theorem c6_warning_nonfatal_w :
    (stepResponse (FetchOutcome.jsonOk true 200 mixedResp) busyExample).story =
      StoryRegion.prose (formatStoryText "You are in a cave.") ∧
    (stepResponse (FetchOutcome.jsonOk true 200 mixedResp) busyExample).storyNotes =
      ["Note: " ++ "Image generation failed"] ∧
    (stepResponse (FetchOutcome.jsonOk true 200 mixedResp) busyExample).imageView =
      updateSceneImage mixedResp.image_url ∧
    (stepResponse (FetchOutcome.jsonOk true 200 mixedResp) busyExample).audioSrc =
      truthyOpt mixedResp.audio_url ∧
    (stepResponse (FetchOutcome.jsonOk true 200 mixedResp) busyExample).choicesRegion =
      updateChoices (mixedResp.choices.getD []) true ∧
    uiMode (stepResponse (FetchOutcome.jsonOk true 200 mixedResp) busyExample) =
      UIMode.active :=
  c6_warning_nonfatal busyExample mixedResp 200 "You are in a cave."
    "Image generation failed" (by decide) (by decide) (by decide) (by decide)
    (by decide) (by decide)

/-- Claim C3 (amended): a whitespace-only prompt makes `handleStartClick`
a complete no-op (alert only, no request, no state change); but
`handleChoiceClick` performs no emptiness validation at all - from an
idle state with a truthy session it issues the `/choose` request even for
an empty or whitespace-only choice label. -/
theorem c3_validation :
    (∀ (st : DMState) (p : String), st.isLoading = false →
      (jsTrim p).isEmpty = true → handleStartClick p st = st) ∧
    (∀ (st : DMState) (l s : String), st.isLoading = false →
      st.sessionId = some s → s.isEmpty = false →
      (handleChoiceClick l st).requests = st.requests ++ [⟨"/choose", l, s⟩]) := by
  constructor
  · intro st p hl hp
    unfold handleStartClick
    simp [hl, hp]
  · intro st l s hl hs hne
    unfold handleChoiceClick postToBackend
    simp [hl, hs, truthyOpt, hne]

/-- Witness for the amended C3: an all-whitespace prompt start is a no-op
at a concrete idle state, and an empty choice label issues a request. -/
theorem c3_validation_w :
    handleStartClick "   " activeExample = activeExample ∧
    (handleChoiceClick "" activeExample).requests =
      activeExample.requests ++ [⟨"/choose", "", "sess"⟩] :=
  ⟨c3_validation.1 activeExample "   " (by decide) (by decide),
   c3_validation.2 activeExample "" "sess" (by decide) (by decide) (by decide)⟩

/-- Counterexample to C3 as stated: invoking choose with the empty label
from a concrete idle in-game state issues a network request and moves the
mode to busy, instead of being rejected locally with no request and no
mode change. -/
theorem c3_empty_choice_requests_cex :
    ¬ ((handleChoiceClick "" activeExample).requests = activeExample.requests ∧
        uiMode (handleChoiceClick "" activeExample) = uiMode activeExample) ∧
    (handleChoiceClick "" activeExample).requests =
      activeExample.requests ++ [⟨"/choose", "", "sess"⟩] ∧
    uiMode activeExample = UIMode.active ∧
    uiMode (handleChoiceClick "" activeExample) = UIMode.busy := by
  refine ⟨?_, by decide, by decide, by decide⟩
  intro hc
  exact absurd hc.1 (by decide)

/-- Claim C7 (amended): `handleQuitClick` of the part_001 variant issues
no network request and restores the initial awaiting-start rendering of
every region except the choices container: because `updateChoices([])`
runs before the prompt container is unhidden, quitting a started game
leaves the terminal "story concludes" notice in the choices region
instead of clearing it. -/
theorem c7_quit_behavior (st : P1.St) :
    (P1.handleQuitClick st).isLoading = false ∧
    (P1.handleQuitClick st).sessionId = st.sessionId ∧
    (P1.handleQuitClick st).promptValue = "" ∧
    (P1.handleQuitClick st).promptHidden = false ∧
    (P1.handleQuitClick st).startBtnHidden = false ∧
    (P1.handleQuitClick st).quitHidden = true ∧
    (P1.handleQuitClick st).story = StoryRegion.prose (formatStoryText
      "Enter a description below to start your AI-powered adventure!") ∧
    (P1.handleQuitClick st).storyNotes = [] ∧
    (P1.handleQuitClick st).imageView = P1.updateSceneImage none ∧
    (P1.handleQuitClick st).audioSrc = none ∧
    (P1.handleQuitClick st).requests = st.requests ∧
    (P1.handleQuitClick st).choicesRegion =
      (if st.promptHidden then [ChoiceNode.endMessage] else []) := by
  unfold P1.handleQuitClick
  refine ⟨rfl, rfl, rfl, rfl, rfl, rfl, rfl, rfl, rfl, rfl, rfl, ?_⟩
  show updateChoices [] st.promptHidden = _
  unfold updateChoices
  simp

/-- Counterexample to C7 as stated: after a concrete start turn and a
quit click in the part_001 variant, the UI is not exactly the initial
awaiting-start rendering - the choices region holds the terminal notice
where the initial rendering has none. -/
theorem c7_quit_not_initial_cex :
    P1.uiView (P1.run (P1.initState "s") p1QuitTrace) ≠
      P1.uiView (P1.initState "s") ∧
    (P1.run (P1.initState "s") p1QuitTrace).choicesRegion =
      [ChoiceNode.endMessage] ∧
    (P1.initState "s").choicesRegion = [] := by
  refine ⟨?_, by decide, by decide⟩
  intro hc
  exact absurd hc (by decide)

lemma truthyOpt_eq_some (o : Option String) (s : String) (h : truthyOpt o = some s) :
    o = some s := by
  cases o with
  | none => exact absurd h (by simp [truthyOpt])
  | some t =>
    by_cases ht : t.isEmpty
    · simp [truthyOpt, ht] at h
    · simp [truthyOpt, ht] at h
      rw [h]

lemma postToBackend_sessionOK (v ep pl : String) (st : DMState)
    (h : sessionOK v st) : sessionOK v (postToBackend ep pl st).2 := by
  unfold postToBackend
  cases hs : truthyOpt st.sessionId with
  | none => exact h
  | some s =>
    have hsv : s = v := by
      have h2 := truthyOpt_eq_some st.sessionId s hs
      rw [h.1] at h2
      exact (Option.some_inj.mp h2).symm
    refine ⟨h.1, ?_⟩
    intro r hr
    rcases List.mem_append.mp hr with hr | hr
    · exact h.2 r hr
    · rcases List.mem_singleton.mp hr with rfl
      exact hsv

lemma applyTurnResponse_sessionId (r : TurnResponse) (st : DMState) :
    (applyTurnResponse r st).sessionId = st.sessionId := by
  unfold applyTurnResponse
  split
  · rfl
  · split <;> rfl

lemma applyTurnResponse_requests (r : TurnResponse) (st : DMState) :
    (applyTurnResponse r st).requests = st.requests := by
  unfold applyTurnResponse
  split
  · rfl
  · split <;> rfl

lemma step_sessionOK (v : String) (e : Event) (st : DMState)
    (h : sessionOK v st) : sessionOK v (step e st) := by
  cases e with
  | startClick p =>
    show sessionOK v (handleStartClick p st)
    unfold handleStartClick
    by_cases hl : st.isLoading
    · simpa [hl] using h
    · by_cases hp : (jsTrim p).isEmpty
      · simpa [hl, hp] using h
      · simp only [hl, hp, Bool.false_eq_true, if_false]
        exact postToBackend_sessionOK v "/start" (jsTrim p) _ h
  | choiceClick l =>
    show sessionOK v (handleChoiceClick l st)
    unfold handleChoiceClick
    by_cases hl : st.isLoading
    · simpa [hl] using h
    · simp only [hl, Bool.false_eq_true, if_false]
      exact postToBackend_sessionOK v "/choose" l _ h
  | response o =>
    show sessionOK v (stepResponse o st)
    unfold stepResponse
    by_cases hz : st.pending = 0
    · simpa [hz] using h
    · simp only [hz, if_false]
      cases htb : tryBody o with
      | error m => exact h
      | ok r =>
        refine ⟨?_, ?_⟩
        · show (applyTurnResponse r _).sessionId = some v
          rw [applyTurnResponse_sessionId]
          exact h.1
        · intro rq hrq
          have hrq2 : rq ∈ (applyTurnResponse r
              { st with pending := st.pending - 1 }).requests := hrq
          rw [applyTurnResponse_requests] at hrq2
          exact h.2 rq hrq2
  | imageError =>
    show sessionOK v (stepImageError st)
    unfold stepImageError
    cases hi : st.imageView <;> exact h

lemma run_sessionOK (v : String) (evs : List Event) (st : DMState)
    (h : sessionOK v st) : sessionOK v (run st evs) := by
  induction evs generalizing st with
  | nil => exact h
  | cons e evs ih => exact ih (step e st) (step_sessionOK v e st h)

lemma postToBackend_sessionId (ep pl : String) (st : DMState) :
    ((postToBackend ep pl st).2).sessionId = st.sessionId := by
  unfold postToBackend
  cases hs : truthyOpt st.sessionId <;> rfl

/-- Claim C9: the session identifier is read exactly once at
initialization and no event ever writes it afterwards, and every request
logged during the page's lifetime carries that same identifier. -/
theorem c9_session_stable :
    (∀ (e : Event) (st : DMState), (step e st).sessionId = st.sessionId) ∧
    (∀ (v : String) (evs : List Event),
      (run (initState v) evs).sessionId = some v ∧
      ∀ r ∈ (run (initState v) evs).requests, r.sessionId = v) := by
  constructor
  · intro e st
    cases e with
    | startClick p =>
      show (handleStartClick p st).sessionId = st.sessionId
      unfold handleStartClick
      by_cases hl : st.isLoading
      · simp [hl]
      · by_cases hp : (jsTrim p).isEmpty
        · simp [hl, hp]
        · simp only [hl, hp, Bool.false_eq_true, if_false]
          exact postToBackend_sessionId "/start" (jsTrim p) _
    | choiceClick l =>
      show (handleChoiceClick l st).sessionId = st.sessionId
      unfold handleChoiceClick
      by_cases hl : st.isLoading
      · simp [hl]
      · simp only [hl, Bool.false_eq_true, if_false]
        exact postToBackend_sessionId "/choose" l _
    | response o =>
      show (stepResponse o st).sessionId = st.sessionId
      unfold stepResponse
      by_cases hz : st.pending = 0
      · simp [hz]
      · simp only [hz, if_false]
        cases htb : tryBody o with
        | error m => rfl
        | ok r => exact applyTurnResponse_sessionId r _
    | imageError =>
      show (stepImageError st).sessionId = st.sessionId
      unfold stepImageError
      cases hi : st.imageView <;> rfl
  · intro v evs
    have h0 : sessionOK v (initState v) := by
      refine ⟨rfl, ?_⟩
      intro r hr
      simp [initState] at hr
    exact run_sessionOK v evs (initState v) h0

/-- Witness for C9 at a concrete trace issuing one request. -/
theorem c9_session_stable_w :
    (step (Event.startClick "A cave") (initState "sess")).sessionId =
      (initState "sess").sessionId ∧
    (run (initState "sess") [Event.startClick "A cave"]).sessionId = some "sess" ∧
    (⟨"/start", "A cave", "sess"⟩ : Request).sessionId = "sess" :=
  ⟨c9_session_stable.1 (Event.startClick "A cave") (initState "sess"),
   (c9_session_stable.2 "sess" [Event.startClick "A cave"]).1,
   (c9_session_stable.2 "sess" [Event.startClick "A cave"]).2
     ⟨"/start", "A cave", "sess"⟩ (by decide)⟩

/-- Claim C10: with a missing or empty session identifier, the request
operation of both script variants issues no fetch at all: it renders the
local missing-session error and returns the null (failed) result, leaving
the request log - and hence the backend - untouched. -/
theorem c10_missing_session :
    (∀ (ep pl : String) (st : DMState), truthyOpt st.sessionId = none →
      postToBackend ep pl st = (false, displayError missingSessionMsg st) ∧
      (postToBackend ep pl st).2.requests = st.requests ∧
      (postToBackend ep pl st).2.story = StoryRegion.errorBlock missingSessionMsg) ∧
    (∀ (ep pl : String) (st : P1.St), truthyOpt st.sessionId = none →
      P1.postToBackend ep pl st = (false, P1.displayError P1.missingSessionMsg st) ∧
      (P1.postToBackend ep pl st).2.requests = st.requests) := by
  constructor
  · intro ep pl st h
    unfold postToBackend
    rw [h]
    exact ⟨rfl, rfl, rfl⟩
  · intro ep pl st h
    unfold P1.postToBackend
    rw [h]
    exact ⟨rfl, rfl⟩

/-- Witness for C10 at concrete empty-session states of both variants. -/
theorem c10_missing_session_w :
    postToBackend "/start" "A cave" noSessionExample =
      (false, displayError missingSessionMsg noSessionExample) ∧
    (postToBackend "/start" "A cave" noSessionExample).2.requests =
      noSessionExample.requests ∧
    P1.postToBackend "/choose" "Go left" p1NoSessionExample =
      (false, P1.displayError P1.missingSessionMsg p1NoSessionExample) :=
  ⟨(c10_missing_session.1 "/start" "A cave" noSessionExample (by decide)).1,
   (c10_missing_session.1 "/start" "A cave" noSessionExample (by decide)).2.1,
   (c10_missing_session.2 "/choose" "Go left" p1NoSessionExample (by decide)).1⟩

/-- Claim C8: each of the failure modes the client can observe is caught
and converted rather than escaping to the host: (a) after any fetch
outcome the `finally` clears the busy flag; (b) every throwing outcome of
the try block (network failure, JSON-parse failure, non-ok status) lands
in the catch, which displays the error and resets to awaiting-start;
(c) every sound-cue failure (unknown cue, constructor exception, rejected
playback promise) is converted into a logged warning; (d) an image load
failure swaps in the error placeholder; (e) an audio autoplay refusal is
converted into a logged warning while the source stays loaded. -/
theorem c8_failures_caught :
    (∀ (st : DMState) (o : FetchOutcome), st.pending = 1 →
      (stepResponse o st).isLoading = false) ∧
    (∀ (st : DMState) (o : FetchOutcome) (m : String), st.pending = 1 →
      tryBody o = Except.error m →
      (stepResponse o st).story = StoryRegion.errorBlock (errMsgOr m) ∧
      uiMode (stepResponse o st) = UIMode.awaitingStart) ∧
    (∀ (name : String) (ev : FX.SoundEvent),
      FX.soundPath name = none ∨ ev ≠ FX.SoundEvent.playOk →
      FX.warningsOf (FX.play name ev) ≠ []) ∧
    (∀ (st : DMState) (url : String), st.imageView = ImageView.shown url →
      (stepImageError st).imageView = ImageView.placeholderError) ∧
    (∀ (u : String), u.isEmpty = false →
      FX.updateAudioPlayerA (some u) true =
        (some u, ["Audio autoplay was prevented"])) := by
  refine ⟨?_, ?_, ?_, ?_, ?_⟩
  · intro st o hp
    unfold stepResponse
    rw [hp]
    simp only [one_ne_zero, if_false]
  · intro st o m hp htb
    unfold stepResponse
    rw [hp, htb]
    exact ⟨rfl, rfl⟩
  · intro name ev h
    cases hn : FX.soundPath name with
    | none => simp [FX.play, hn, FX.warningsOf]
    | some p =>
      cases ev with
      | ctorThrows m => simp [FX.play, hn, FX.audioCtorE, FX.warningsOf]
      | playRejected m => simp [FX.play, hn, FX.audioCtorE, FX.warningsOf]
      | playOk =>
        rcases h with h | h
        · rw [hn] at h
          exact absurd h (by simp)
        · exact absurd rfl h
  · intro st url h
    unfold stepImageError
    rw [h]
  · intro u hne
    simp [FX.updateAudioPlayerA, truthyOpt, hne]

/-- Witness for C8 at concrete failing inputs for each failure mode. -/
theorem c8_failures_caught_w :
    (stepResponse (FetchOutcome.netError "boom") busyExample).isLoading = false ∧
    (stepResponse (FetchOutcome.netError "boom") busyExample).story =
      StoryRegion.errorBlock (errMsgOr "boom") ∧
    uiMode (stepResponse (FetchOutcome.netError "boom") busyExample) =
      UIMode.awaitingStart ∧
    FX.warningsOf (FX.play "click" (FX.SoundEvent.playRejected "NotAllowedError")) ≠ [] ∧
    (stepImageError (stepResponse (FetchOutcome.jsonOk true 200 mixedResp)
      busyExample)).imageView = ImageView.placeholderError ∧
    FX.updateAudioPlayerA (some "/audio.mp3") true =
      (some "/audio.mp3", ["Audio autoplay was prevented"]) := by
  have h2 := c8_failures_caught.2.1 busyExample (FetchOutcome.netError "boom") "boom"
    (by decide) rfl
  exact ⟨c8_failures_caught.1 busyExample (FetchOutcome.netError "boom") (by decide),
    h2.1, h2.2,
    c8_failures_caught.2.2.1 "click" (FX.SoundEvent.playRejected "NotAllowedError")
      (Or.inr (by decide)),
    c8_failures_caught.2.2.2.1 (stepResponse (FetchOutcome.jsonOk true 200 mixedResp)
      busyExample) "/img.png" (by decide),
    c8_failures_caught.2.2.2.2 "/audio.mp3" (by decide)⟩
